import Mathlib

/-!
Shallow embedding of the job/objective progression system from
`src/server/systems/job.mjs`.

Conventions of the embedding:
- JavaScript numbers are embedded as exact rationals for coordinates and
  ranges, and as integers for counters (`progress`, `maxProgress`, reward
  quantities); none of the arithmetic in this file is precision-sensitive.
- In-place mutation of an `Objective`, a `Job` or a `Player` is embedded as
  explicit state passing: a function that mutates its receiver in the source
  returns the updated record here.
- Calls into external services (`player.emitMeta`, `player.send`, `addXP`,
  `player.addItem`, `console.log`, `player.playAnimation`, `player.playAudio`)
  are embedded as an emitted list of `Event` values, in call order.
- A JavaScript statement that would throw a `TypeError` (member access on
  `undefined`) is embedded as an `Option` result of `none`.
-/

namespace JobSystem

/-- A 3D point, as handled by the position fields of the source. -/
structure Vec3 where
  x : ℚ
  y : ℚ
  z : ℚ
  deriving DecidableEq

/-- Objective kind codes, from the `Objectives` constant table of the source. -/
def Objectives.POINT : ℕ := 0

/-- Kind code 1: stand in point. -/
def Objectives.CAPTURE : ℕ := 1

/-- Kind code 2: hold a key. -/
def Objectives.HOLD : ℕ := 2

/-- Kind code 3: mash a key. -/
def Objectives.MASH : ℕ := 3

/-- Kind code 4: player type target. -/
def Objectives.PLAYER : ℕ := 4

/-- Kind code 5: press keys in order. -/
def Objectives.ORDER : ℕ := 5

/-- Kind code 6: repeat any objectives after this. -/
def Objectives.INFINITE : ℕ := 6

/-- Modifier bit values, from the `Modifiers` constant table of the source. -/
def Modifiers.MIN : ℕ := 0

/-- Modifier bit 1: player must be on foot. -/
def Modifiers.ON_FOOT : ℕ := 1

/-- Modifier bit 2: player must be in a vehicle. -/
def Modifiers.IN_VEHICLE : ℕ := 2

/-- Modifier bit 4: the objective tracks progress. -/
def Modifiers.PROGRESS : ℕ := 4

/-- Modifier bit 8. -/
def Modifiers.SPAWN_VEHICLE : ℕ := 8

/-- Modifier bit 16. -/
def Modifiers.REMOVE_VEHICLE : ℕ := 16

/-- Modifier bit 32. -/
def Modifiers.PICKUP_PLAYER : ℕ := 32

/-- Modifier bit 64. -/
def Modifiers.DROPOFF_PLAYER : ℕ := 64

/-- Modifier bit 128. -/
def Modifiers.KILL_PLAYER : ℕ := 128

/-- Modifier bit 256. -/
def Modifiers.REPAIR_PLAYER : ℕ := 256

/-- Modifier bit 512. -/
def Modifiers.ITEM_RESTRICTIONS : ℕ := 512

/-- Modifier bit 1024, the MAX sentinel. -/
def Modifiers.MAX : ℕ := 1024

/-- Source `isFlagged(flags, flagValue)`: true when the bitwise AND of the
two arguments equals `flagValue`. -/
def isFlagged (flags flagValue : ℕ) : Bool :=
  if flags &&& flagValue = flagValue then true else false

/-- An animation descriptor, as stored by `setAnimation`. -/
structure Anim where
  dict : String
  name : String
  flags : ℤ
  duration : ℤ
  deriving DecidableEq

/-- A marker descriptor, as stored by `setMarker`. -/
structure Marker where
  type : ℕ
  pos : Vec3
  dir : Vec3
  rot : Vec3
  scale : Vec3
  r : ℤ
  g : ℤ
  b : ℤ
  a : ℤ
  deriving DecidableEq

/-- A blip descriptor, as stored by `setBlip`. -/
structure Blip where
  sprite : ℕ
  color : ℕ
  pos : Vec3
  deriving DecidableEq

/-- A target descriptor, as stored by `setTarget`. The source stores an
arbitrary game entity; the embedding fixes the entity payload to a point,
which is all the stored-as-passed properties need. -/
structure Target where
  target : Vec3
  type : String
  deriving DecidableEq

/-- One entry of the reward list: `{ type, prop, quantity }`. -/
structure Reward where
  type : String
  prop : String
  quantity : ℤ
  deriving DecidableEq

/-- One entry of the item-restriction list: `{ label, inInventory, quantity }`. -/
structure ItemRestriction where
  label : String
  inInventory : Bool
  quantity : ℤ
  deriving DecidableEq

/-- Modelled from the spec: an entry of the external item catalog
(`Items` from `configuration/items.mjs`, absent from src) carries at least a
label and a stackable flag. -/
structure ItemDef where
  label : String
  stackable : Bool
  deriving DecidableEq

/-- Modelled from the spec: the external item catalog is a lookup from item
keys to item definitions, with a not-found case. -/
def Catalog : Type := String → Option ItemDef

/-- A single job step, from the `Objective` class of the source. Fields that
the constructor leaves undefined are embedded as `Option`, defaulting to
`none`. -/
structure Objective where
  type : ℕ
  flags : ℕ
  rewards : List Reward := []
  range : ℚ := 5
  maxProgress : ℤ := 5
  progress : ℤ := -1
  pos : Option Vec3 := none
  word : Option String := none
  helpText : Option String := none
  everySound : Option String := none
  finishSound : Option String := none
  anim : Option Anim := none
  marker : Option Marker := none
  blip : Option Blip := none
  target : Option Target := none
  itemRestrictions : Option (List ItemRestriction) := none
  deriving DecidableEq

/-- Source `Objective` constructor: sets type and flags, empty rewards,
`range = 5`, `maxProgress = 5`, `progress = -1`; when the type is 5 it draws
a word from the external dictionary service. The drawn word is passed in as
the `dictWord` parameter (the dictionary and the random draw live outside
src). -/
def Objective.create (objectiveType objectiveFlags : ℕ) (dictWord : String) : Objective :=
  { type := objectiveType
    flags := objectiveFlags
    rewards := []
    range := 5
    maxProgress := 5
    progress := -1
    word := if objectiveType = 5 then some dictWord else none }

/-- Source `setPosition(pos)`: the source first executes `pos.z -= 0.5` and
then stores the mutated argument, so the stored position has its z
coordinate lowered by one half. -/
def Objective.setPosition (o : Objective) (pos : Vec3) : Objective :=
  { o with pos := some { pos with z := pos.z - 1/2 } }

/-- Source `setRange(range)`: a request of at most 2 is clamped to 2. -/
def Objective.setRange (o : Objective) (range : ℚ) : Objective :=
  { o with range := if range ≤ 2 then 2 else range }

/-- Source `setHelpText(msg)`. -/
def Objective.setHelpText (o : Objective) (msg : String) : Objective :=
  { o with helpText := some msg }

/-- Source `setRewards(arrayOfRewards)`. -/
def Objective.setRewards (o : Objective) (arrayOfRewards : List Reward) : Objective :=
  { o with rewards := arrayOfRewards }

/-- Source `setEverySound(soundName)`. -/
def Objective.setEverySound (o : Objective) (soundName : String) : Objective :=
  { o with everySound := some soundName }

/-- Source `setFinishSound(soundName)`. -/
def Objective.setFinishSound (o : Objective) (soundName : String) : Objective :=
  { o with finishSound := some soundName }

/-- Source `setAnimation(dict, name, flags, duration)`. -/
def Objective.setAnimation (o : Objective) (dict name : String) (flags duration : ℤ) : Objective :=
  { o with anim := some { dict := dict, name := name, flags := flags, duration := duration } }

/-- Source `setMarker(type, pos, dir, rot, scale, r, g, b, a)`. -/
def Objective.setMarker (o : Objective) (type : ℕ) (pos dir rot scale : Vec3)
    (r g b a : ℤ) : Objective :=
  { o with marker := some { type := type, pos := pos, dir := dir, rot := rot,
                            scale := scale, r := r, g := g, b := b, a := a } }

/-- Source `setBlip(sprite, color, pos)`. -/
def Objective.setBlip (o : Objective) (sprite color : ℕ) (pos : Vec3) : Objective :=
  { o with blip := some { sprite := sprite, color := color, pos := pos } }

/-- Source `setTarget(target, type)`. -/
def Objective.setTarget (o : Objective) (target : Vec3) (type : String) : Objective :=
  { o with target := some { target := target, type := type } }

/-- Source `setItemRestrictions(arrayOfItems)`. -/
def Objective.setItemRestrictions (o : Objective) (arrayOfItems : List ItemRestriction) :
    Objective :=
  { o with itemRestrictions := some arrayOfItems }

/-- The per-player session state the job system reads and writes:
position, vehicle occupancy (truthiness of `player.vehicle`), and the
reentrancy flag `player.checking`. -/
structure Player where
  pos : Vec3
  vehicle : Bool := false
  checking : Bool := false
  deriving DecidableEq

/-- An observable call into one of the external services, in call order. -/
inductive Event where
  | emitProgress (value : ℤ)
  | emitObjective (payload : Option Objective)
  | emitClearObjective
  | send (message : String)
  | addXP (skill : String) (amount : ℤ)
  | addItem (item : ItemDef) (quantity : ℤ)
  | logReward (message : String)
  | playAnimationEv (dict : String) (anim : String) (duration : ℤ)
  | playAudio (sound : String)
  deriving DecidableEq

/-- Squared straight-line distance between two points. -/
def distSq (a b : Vec3) : ℚ :=
  (a.x - b.x) ^ 2 + (a.y - b.y) ^ 2 + (a.z - b.z) ^ 2

/-- Modelled from the spec: the position/distance service of
`utility/vector.mjs` (absent from src) computes straight-line 3D Euclidean
distance between two points. -/
noncomputable def distance (a b : Vec3) : ℝ :=
  Real.sqrt ((distSq a b : ℚ) : ℝ)

/-- Source `isInRange(player, objective)`: returns false when
`distance(player.pos, objective.pos) >= objective.range` and true otherwise.
The Euclidean distance is nonnegative, so the comparison
`distance >= range` holds exactly when `range <= 0` or
`distSq >= range ^ 2`; the definition uses that form to stay computable.
Theorem `isInRange_eq_true_iff` below proves this definition agrees with the
direct Euclidean formulation. The `none` branch is unreachable from
`checkObjective`, which defaults `pos` before the range gate runs. -/
def isInRange (playerPos : Vec3) (objective : Objective) : Bool :=
  match objective.pos with
  | none => true
  | some q =>
    if objective.range ≤ 0 then false
    else if objective.range ^ 2 ≤ distSq playerPos q then false
    else true

/-- Source `playAnimation(player, objective)`: no-op when no animation is
configured. The source passes `anim.flag`, a field that does not exist
(the stored field is `flags`), so the flags argument of the external call is
always undefined and is not recorded in the event. -/
def playAnimation (p : Player) (o : Objective) : List Event :=
  match o.anim with
  | none => []
  | some a => [Event.playAnimationEv a.dict a.name a.duration]

/-- Source `playEverySound(player, objective)`: no-op when no per-tick sound
is configured. -/
def playEverySound (p : Player) (o : Objective) : List Event :=
  match o.everySound with
  | none => []
  | some s => [Event.playAudio s]

/-- Source `capture(player, objective)`: increments progress; while below
`maxProgress`, plays presentation and reports not-done. -/
def capture (p : Player) (o : Objective) : Bool × Objective × List Event :=
  let o := { o with progress := o.progress + 1 }
  if o.progress < o.maxProgress then
    (false, o, playAnimation p o ++ playEverySound p o)
  else
    (true, o, [])

/-- Source `hold(player, objective)`: same body as `capture`. -/
def hold (p : Player) (o : Objective) : Bool × Objective × List Event :=
  let o := { o with progress := o.progress + 1 }
  if o.progress < o.maxProgress then
    (false, o, playAnimation p o ++ playEverySound p o)
  else
    (true, o, [])

/-- Source `mash(player, objective)`: same body as `capture`. -/
def mash (p : Player) (o : Objective) : Bool × Objective × List Event :=
  let o := { o with progress := o.progress + 1 }
  if o.progress < o.maxProgress then
    (false, o, playAnimation p o ++ playEverySound p o)
  else
    (true, o, [])

/-- Source `order(player, objective, args)`: an empty stub. It returns
undefined, which every caller consumes in a boolean position, so the
embedding returns false. The ignored `args` parameter is omitted. -/
def order (p : Player) (o : Objective) : Bool × Objective × List Event :=
  (false, o, [])

/-- Source `target(player, objective)`: an empty stub that is declared but
never invoked by `checkObjective`. -/
def targetStub (p : Player) (o : Objective) : Bool × Objective × List Event :=
  (false, o, [])

/-- Source `Objective.checkObjective(player, args)`, line by line:
default the position to the player when unset; range-gate kinds of code at
most 5; apply the `ON_FOOT`, `IN_VEHICLE` and `PROGRESS` modifier gates while
still valid; finally dispatch on the kind while still valid. The `PROGRESS`
gate is the source statement `if (!this.progress) this.progress = 0`; the
constructor always sets `progress` to a number, and the only falsy number
reachable there is 0, so the embedded test is `progress = 0`. The unused
`args` parameter (only forwarded to the empty `order` stub) is omitted. -/
def Objective.checkObjective (o : Objective) (p : Player) : Bool × Objective × List Event :=
  let o := if o.pos.isNone then { o with pos := some p.pos } else o
  let valid := true
  let valid := if o.type ≤ 5 then (if isInRange p.pos o then valid else false) else valid
  let valid :=
    if isFlagged o.flags Modifiers.ON_FOOT && valid then
      (if p.vehicle then false else valid)
    else valid
  let valid :=
    if isFlagged o.flags Modifiers.IN_VEHICLE && valid then
      (if p.vehicle then valid else false)
    else valid
  let o :=
    if isFlagged o.flags Modifiers.PROGRESS && valid then
      (if o.progress = 0 then { o with progress := 0 } else o)
    else o
  let r1 := if o.type == Objectives.CAPTURE && valid then capture p o
            else (valid, o, ([] : List Event))
  let r2 := if o.type == Objectives.HOLD && r1.1 then hold p r1.2.1 else r1
  let r3 := if o.type == Objectives.MASH && r2.1 then mash p r2.2.1 else r2
  let r4 := if o.type == Objectives.ORDER && r3.1 then order p r3.2.1 else r3
  r4

/-- The non-stackable grant loop of the reward issuance, the source loop
for i from 0 below quantity: each iteration grants one unit and notifies
the player. -/
def grantLoop (item : ItemDef) : ℕ → List Event
  | 0 => []
  | n + 1 =>
    grantLoop item n ++
      [Event.addItem item 1,
       Event.send (item.label ++ " was added to your inventory.")]

/-- One reward entry of the issuance loop inside
`Objective.attemptObjective`: an xp reward calls the external skill service;
an item reward looks the key up in the catalog, grants the whole quantity at
once when stackable (with one notification), and otherwise runs the
per-unit grant loop; an unknown key logs a diagnostic and grants nothing. -/
def issueReward (cat : Catalog) (reward : Reward) : List Event :=
  (if reward.type = "xp" then [Event.addXP reward.prop reward.quantity] else []) ++
  (if reward.type = "item" then
    match cat reward.prop with
    | some item =>
      if item.stackable then
        [Event.addItem item reward.quantity,
         Event.send (item.label ++ " was added to your inventory.")]
      else
        grantLoop item reward.quantity.toNat
    | none => [Event.logReward (reward.prop ++ " was not found for a reward.")]
  else [])

/-- The `rewards.forEach` traversal of `Objective.attemptObjective`. -/
def issueRewards (cat : Catalog) : List Reward → List Event
  | [] => []
  | r :: rs => issueReward cat r ++ issueRewards cat rs

/-- Source `Objective.attemptObjective(player, ...args)`: delegates to
`checkObjective`; on failure emits the current progress and reports false;
on success issues the rewards in order, emits the objective-cleared signal
(the emitMeta job:Objective call with an undefined payload) and reports true. -/
def Objective.attemptObjective (o : Objective) (cat : Catalog) (p : Player) :
    Bool × Objective × List Event :=
  let res := o.checkObjective p
  if !res.1 then
    (false, res.2.1, res.2.2 ++ [Event.emitProgress res.2.1.progress])
  else
    let rewardEvs := if 1 ≤ res.2.1.rewards.length then issueRewards cat res.2.1.rewards else []
    (true, res.2.1, res.2.2 ++ rewardEvs ++ [Event.emitObjective none])

/-- A job: a named FIFO queue of objectives plus the infinite-loop flag.
The source leaves `this.infinite` undefined until it is first set; undefined
is falsy wherever the field is read, so the embedding defaults it to
false. -/
structure Job where
  name : String
  objectives : List Objective := []
  infinite : Bool := false
  deriving DecidableEq

/-- Source `Job` constructor: a fresh named job with an empty queue. The
source also binds the job onto `player.job`; that external binding is not
part of the job state. -/
def Job.create (name : String) : Job :=
  { name := name, objectives := [], infinite := false }

/-- Source `Job.add(objectiveClass)`: append to the tail. -/
def Job.add (j : Job) (objectiveClass : Objective) : Job :=
  { j with objectives := j.objectives ++ [objectiveClass] }

/-- Source `Job.start(player)`: publish the serialized head objective. -/
def Job.start (j : Job) : List Event :=
  [Event.emitObjective j.objectives.head?]

/-- Source `Job.next(player)`: shift the just-completed head, emit the
clear-objective signal, then: if the queue still has a head, re-append the
shifted objective when already in infinite mode, consume an infinite marker
at the head (setting the flag and shifting again), and publish the new head;
if the shift left the queue empty, publish no-objective and the completion
notification. -/
def Job.next (j : Job) : Job × List Event :=
  match j.objectives with
  | [] =>
    (j, [Event.emitClearObjective, Event.emitObjective none, Event.send "Job Complete"])
  | lastObjective :: rest =>
    match rest with
    | [] =>
      ({ j with objectives := [] },
       [Event.emitClearObjective, Event.emitObjective none, Event.send "Job Complete"])
    | head :: _ =>
      let objs := if j.infinite then rest ++ [lastObjective] else rest
      if head.type = Objectives.INFINITE then
        let j2 : Job := { j with objectives := objs.tail, infinite := true }
        (j2, [Event.emitClearObjective, Event.emitObjective j2.objectives.head?])
      else
        let j2 : Job := { j with objectives := objs }
        (j2, [Event.emitClearObjective, Event.emitObjective j2.objectives.head?])

/-- Source `Job.check(player, ...args)`: the single-flight guard returns
immediately when `player.checking` is already set; otherwise it sets the
flag, runs the head objective, clears the flag, and advances on success.
When the queue is empty the source dereferences `this.objectives[0]`, which
is undefined, and throws a `TypeError`; the embedding returns `none` for
that case. -/
def Job.check (j : Job) (cat : Catalog) (p : Player) : Option (Player × Job × List Event) :=
  if p.checking then some (p, j, [])
  else
    let p := { p with checking := true }
    match h : j.objectives with
    | [] => none
    | head :: rest =>
      let res := head.attemptObjective cat p
      if !res.1 then
        some ({ p with checking := false }, { j with objectives := res.2.1 :: rest }, res.2.2)
      else
        let nx := Job.next { j with objectives := res.2.1 :: rest }
        some ({ p with checking := false }, nx.1, res.2.2 ++ nx.2)

/-- Iterated `checkObjective` against a fixed player: the objective state
after n calls. -/
def checkIter (p : Player) (o : Objective) : ℕ → Objective
  | 0 => o
  | n + 1 => ((checkIter p o n).checkObjective p).2.1

/-- A player standing at the origin, on foot, not mid-check. -/
def pOrigin : Player :=
  { pos := { x := 0, y := 0, z := 0 }, vehicle := false, checking := false }

/-- A fresh capture objective with no modifier flags, as a concrete test
input. -/
def captureFresh : Objective := Objective.create Objectives.CAPTURE 0 "w"

/-- A fresh point objective with only the PROGRESS modifier, as a concrete
test input. -/
def pointProgressFresh : Objective := Objective.create Objectives.POINT Modifiers.PROGRESS "w"

/-- An empty item catalog. -/
def catEmpty : Catalog := fun _ => none


/-- A concrete capture objective positioned at the origin (test input). -/
def captureAt : Objective :=
  { Objective.create Objectives.CAPTURE 0 "w" with pos := some { x := 0, y := 0, z := 0 } }

/-- A player already holding the reentrancy flag (test input). -/
def pChecking : Player := { pOrigin with checking := true }

/-- Concrete point objective labelled A (test input). -/
def oA : Objective := (Objective.create Objectives.POINT 0 "w").setHelpText "A"

/-- Concrete point objective labelled B (test input). -/
def oB : Objective := (Objective.create Objectives.POINT 0 "w").setHelpText "B"

/-- Concrete point objective labelled C (test input). -/
def oC : Objective := (Objective.create Objectives.POINT 0 "w").setHelpText "C"

/-- Concrete infinite marker objective (test input). -/
def oM : Objective := Objective.create Objectives.INFINITE 0 "w"

/-- A concrete stackable catalog entry (test input). -/
def carrotDef : ItemDef := { label := "Carrot", stackable := true }

/-- A catalog holding only the carrot entry (test input). -/
def catCarrot : Catalog := fun k => if k = "carrot" then some carrotDef else none

end JobSystem

namespace JobSystem

/-! Helper lemmas shared by the claim theorems. -/

/-- Squared distance from a point to itself is zero. -/
theorem distSq_self (a : Vec3) : distSq a a = 0 := by
  simp [distSq]

/-- Rewriting the progress field with its current value is the identity. -/
theorem set_progress_self (o : Objective) (v : ℤ) (h : o.progress = v) :
    { o with progress := v } = o := by
  cases o
  simp_all

/-- The computable range gate agrees with the Euclidean formulation of the
spec: it passes exactly when the Euclidean distance to the set position is
strictly below the stored range. -/
theorem isInRange_eq_true_iff (playerPos q : Vec3) (o : Objective) (hq : o.pos = some q) :
    isInRange playerPos o = true ↔ distance playerPos q < o.range := by
  have hnn : (0 : ℝ) ≤ distance playerPos q := Real.sqrt_nonneg _
  have hds : (0 : ℚ) ≤ distSq playerPos q := by
    have hx := sq_nonneg (playerPos.x - q.x)
    have hy := sq_nonneg (playerPos.y - q.y)
    have hz := sq_nonneg (playerPos.z - q.z)
    simp only [distSq]
    nlinarith
  rw [isInRange, hq]
  by_cases hr : o.range ≤ 0
  · simp only [hr, if_true]
    constructor
    · intro h; cases h
    · intro h
      exfalso
      have : (o.range : ℝ) ≤ 0 := by exact_mod_cast hr
      linarith
  · have hrpos : (0 : ℚ) < o.range := lt_of_not_le hr
    have hrposR : (0 : ℝ) < (o.range : ℝ) := by exact_mod_cast hrpos
    simp only [hr, if_false]
    by_cases hc : o.range ^ 2 ≤ distSq playerPos q
    · simp only [hc, if_true]
      constructor
      · intro h; cases h
      · intro h
        exfalso
        rw [distance, Real.sqrt_lt' hrposR] at h
        have : ((o.range : ℝ)) ^ 2 ≤ ((distSq playerPos q : ℚ) : ℝ) := by exact_mod_cast hc
        linarith
    · have hlt : distSq playerPos q < o.range ^ 2 := lt_of_not_le hc
      simp only [hc, if_false]
      constructor
      · intro _
        rw [distance, Real.sqrt_lt' hrposR]
        exact_mod_cast hlt
      · intro _; trivial

/-- One call of checkObjective on a capture, hold or mash objective whose
gates all pass: the kind strategy increments progress and succeeds exactly
when the incremented progress reaches maxProgress. -/
theorem checkObjective_capture_like (p : Player) (o : Objective) (q : Vec3)
    (ht : o.type = 1 ∨ o.type = 2 ∨ o.type = 3)
    (hpos : o.pos = some q)
    (hin : isInRange p.pos o = true)
    (h1 : isFlagged o.flags Modifiers.ON_FOOT = true → p.vehicle = false)
    (h2 : isFlagged o.flags Modifiers.IN_VEHICLE = true → p.vehicle = true) :
    (o.checkObjective p).1 = decide (o.maxProgress ≤ o.progress + 1) ∧
    (o.checkObjective p).2.1 = { o with progress := o.progress + 1 } := by
  have hpn : o.pos.isNone = false := by rw [hpos]; rfl
  by_cases hf1 : isFlagged o.flags Modifiers.ON_FOOT = true <;>
  by_cases hf2 : isFlagged o.flags Modifiers.IN_VEHICLE = true <;>
  by_cases hf4 : isFlagged o.flags Modifiers.PROGRESS = true <;>
  by_cases hp0 : o.progress = 0 <;>
  rcases ht with h | h | h <;>
  by_cases hm : o.progress + 1 < o.maxProgress <;>
  simp_all [Objective.checkObjective, capture, hold, mash, order,
    Objectives.CAPTURE, Objectives.HOLD, Objectives.MASH, Objectives.ORDER,
    set_progress_self, h1, h2] <;>
  first
    | omega
    | (split_ifs with hsp <;> simp_all <;> omega)

/-- A kind-dispatch step over an already-produced result preserves the
position of the carried objective. -/
theorem strat_step_pos (p : Player) (c : Bool) (r : Bool × Objective × List Event)
    (f : Player → Objective → Bool × Objective × List Event)
    (hf : ∀ z, (f p z).2.1.pos = z.pos) :
    (if c = true then f p r.2.1 else r).2.1.pos = r.2.1.pos := by
  split_ifs <;> simp [hf]

/-- The first kind-dispatch step preserves the position of the objective. -/
theorem strat_head_pos (p : Player) (c v : Bool) (z : Objective) (evs : List Event)
    (f : Player → Objective → Bool × Objective × List Event)
    (hf : ∀ w, (f p w).2.1.pos = w.pos) :
    (if c = true then f p z else (v, z, evs)).2.1.pos = z.pos := by
  split_ifs <;> simp [hf]

/-- The capture strategy never moves the objective position. -/
theorem capture_pos (p : Player) (z : Objective) : (capture p z).2.1.pos = z.pos := by
  unfold capture; dsimp only; split_ifs <;> rfl

/-- The hold strategy never moves the objective position. -/
theorem hold_pos (p : Player) (z : Objective) : (hold p z).2.1.pos = z.pos := by
  unfold hold; dsimp only; split_ifs <;> rfl

/-- The mash strategy never moves the objective position. -/
theorem mash_pos (p : Player) (z : Objective) : (mash p z).2.1.pos = z.pos := by
  unfold mash; dsimp only; split_ifs <;> rfl

/-- The order stub never moves the objective position. -/
theorem order_pos (p : Player) (z : Objective) : (order p z).2.1.pos = z.pos := rfl

/-- The objective coming out of checkObjective carries the defaulted
position: the player position when it was unset, the original one
otherwise. -/
theorem checkObjective_pos (o : Objective) (p : Player) :
    ((o.checkObjective p).2.1).pos = if o.pos.isNone then some p.pos else o.pos := by
  unfold Objective.checkObjective
  rw [strat_step_pos p _ _ order (order_pos p),
      strat_step_pos p _ _ mash (mash_pos p),
      strat_step_pos p _ _ hold (hold_pos p),
      strat_head_pos p _ _ _ _ capture (capture_pos p)]
  split_ifs <;> rfl

/-- A failed range gate makes checkObjective report invalid: no modifier or
kind stage can set valid back to true. -/
theorem checkObjective_fails_out_of_range (o : Objective) (p : Player) (q : Vec3)
    (htype : o.type ≤ 5) (hpos : o.pos = some q)
    (hfail : isInRange p.pos o = false) :
    (o.checkObjective p).1 = false := by
  have hpn : o.pos.isNone = false := by rw [hpos]; rfl
  simp [Objective.checkObjective, hpn, htype, hfail]

/-! Claim C1. -/

/-- Claim C1 as frozen is false: on a fresh capture objective the 5th
in-range call of checkObjective still returns false (the claim says it
returns true), and after 4 calls the progress is 3, not 4, because progress
starts at -1 and the first increment only brings it to 0. -/
theorem claim_C1_counterexample :
    (((((captureFresh.checkObjective pOrigin).2.1.checkObjective pOrigin).2.1.checkObjective
        pOrigin).2.1.checkObjective pOrigin).2.1.checkObjective pOrigin).1 = false ∧
    ((((captureFresh.checkObjective pOrigin).2.1.checkObjective pOrigin).2.1.checkObjective
        pOrigin).2.1.checkObjective pOrigin).2.1.progress = 3 := by
  norm_num [Objective.checkObjective, capture, isInRange, isFlagged, distSq,
    Objective.create, captureFresh, pOrigin, Modifiers.ON_FOOT, Modifiers.IN_VEHICLE,
    Modifiers.PROGRESS, Objectives.CAPTURE, Objectives.HOLD, Objectives.MASH,
    Objectives.ORDER, playAnimation, playEverySound]

/-- Amended claim C1: a capture, hold or mash objective with maxProgress 5
and the default progress of -1 requires exactly 6 in-range, gate-satisfying
checkObjective invocations; calls 1 through 5 return false and leave
progress at 0, 1, 2, 3, 4 respectively, and the 6th call transitions
progress from 4 to 5 and returns true. -/
theorem claim_C1_amended (p : Player) (o : Objective) (q : Vec3)
    (ht : o.type = 1 ∨ o.type = 2 ∨ o.type = 3)
    (hpos : o.pos = some q)
    (hin : isInRange p.pos o = true)
    (h1 : isFlagged o.flags Modifiers.ON_FOOT = true → p.vehicle = false)
    (h2 : isFlagged o.flags Modifiers.IN_VEHICLE = true → p.vehicle = true)
    (hmax : o.maxProgress = 5) (hprog : o.progress = -1) :
    (∀ n < 6, ((checkIter p o n).checkObjective p).1 = decide (n = 5)) ∧
    (∀ n ≤ 6, (checkIter p o n).progress = (n : ℤ) - 1) := by
  have inv : ∀ n : ℕ, checkIter p o n = { o with progress := (n : ℤ) - 1 } := by
    intro n
    induction n with
    | zero =>
      simp only [checkIter, Nat.cast_zero, zero_sub]
      exact (set_progress_self o (-1) hprog).symm
    | succ k ih =>
      have hstep := checkObjective_capture_like p { o with progress := (k : ℤ) - 1 } q
        ht hpos hin h1 h2
      simp only [checkIter, ih]
      rw [hstep.2]
      congr 1
      push_cast
      ring
  constructor
  · intro n hn
    have hstep := checkObjective_capture_like p { o with progress := (n : ℤ) - 1 } q
      ht hpos hin h1 h2
    rw [inv n, hstep.1]
    simp only [hmax]
    rw [decide_eq_decide]
    omega
  · intro n _
    rw [inv n]

/-- Witness for the amended claim C1 at a concrete capture objective and a
player standing on it: the 5th call still returns false, the 6th returns
true, and the progress counter stands at 4 and 5 after them. -/
theorem claim_C1_witness :
    ((checkIter pOrigin captureAt 4).checkObjective pOrigin).1 = false ∧
    ((checkIter pOrigin captureAt 5).checkObjective pOrigin).1 = true ∧
    (checkIter pOrigin captureAt 5).progress = 4 ∧
    (checkIter pOrigin captureAt 6).progress = 5 := by
  have h := claim_C1_amended pOrigin captureAt { x := 0, y := 0, z := 0 }
    (Or.inl rfl) rfl
    (by norm_num [isInRange, captureAt, Objective.create, distSq, pOrigin])
    (by decide) (by decide) rfl rfl
  refine ⟨?_, ?_, ?_, ?_⟩
  · simpa using h.1 4 (by omega)
  · simpa using h.1 5 (by omega)
  · simpa using h.2 5 (by omega)
  · simpa using h.2 6 (by omega)

/-! Claim C2. -/

/-- Claim C2 as frozen is false: on the queue A, B, marker, C the third
next call leaves the queue empty; C is not re-appended and the head does
not become A. -/
theorem claim_C2_counterexample :
    ((Job.next (Job.next (Job.next
        { name := "j", objectives := [oA, oB, oM, oC], infinite := false }).1).1).1).objectives =
      [] ∧
    ((Job.next (Job.next (Job.next
        { name := "j", objectives := [oA, oB, oM, oC], infinite := false }).1).1).1).objectives.head? ≠
      some oA := by
  decide

/-- Amended claim C2: for a job with queue A, B, marker, C, the first next
makes B the head, the second next sets the infinite flag, discards the
marker and makes C the head; but after C completes the shift empties the
queue before the recycling push can run, so C is not re-appended: the third
next publishes no-objective and the completion notification and leaves the
queue empty. -/
theorem claim_C2_amended (nm : String) (A B M C : Objective)
    (hB : B.type ≠ 6) (hM : M.type = 6) :
    Job.next { name := nm, objectives := [A, B, M, C], infinite := false } =
      ({ name := nm, objectives := [B, M, C], infinite := false },
       [Event.emitClearObjective, Event.emitObjective (some B)]) ∧
    Job.next { name := nm, objectives := [B, M, C], infinite := false } =
      ({ name := nm, objectives := [C], infinite := true },
       [Event.emitClearObjective, Event.emitObjective (some C)]) ∧
    Job.next { name := nm, objectives := [C], infinite := true } =
      ({ name := nm, objectives := [], infinite := true },
       [Event.emitClearObjective, Event.emitObjective none, Event.send "Job Complete"]) := by
  refine ⟨?_, ?_, ?_⟩ <;> simp [Job.next, Objectives.INFINITE, hB, hM]

/-- Witness for the amended claim C2 on four concrete objectives. -/
theorem claim_C2_witness :
    Job.next { name := "j", objectives := [oA, oB, oM, oC], infinite := false } =
      ({ name := "j", objectives := [oB, oM, oC], infinite := false },
       [Event.emitClearObjective, Event.emitObjective (some oB)]) ∧
    Job.next { name := "j", objectives := [oB, oM, oC], infinite := false } =
      ({ name := "j", objectives := [oC], infinite := true },
       [Event.emitClearObjective, Event.emitObjective (some oC)]) ∧
    Job.next { name := "j", objectives := [oC], infinite := true } =
      ({ name := "j", objectives := [], infinite := true },
       [Event.emitClearObjective, Event.emitObjective none, Event.send "Job Complete"]) :=
  claim_C2_amended "j" oA oB oM oC (by decide) rfl

/-! Claim C3. -/

/-- Claim C3 is right about the intent and the code breaks it: completing
the single objective publishes no-objective and the completion
notification, but the next check call on the now-empty queue dereferences
the missing head objective and throws, modelled as the none result. -/
theorem claim_C3_bug :
    Job.next { name := "solo", objectives := [oA], infinite := false } =
      ({ name := "solo", objectives := [], infinite := false },
       [Event.emitClearObjective, Event.emitObjective none, Event.send "Job Complete"]) ∧
    Job.check { name := "solo", objectives := [], infinite := false } catEmpty pOrigin =
      none := by
  exact ⟨rfl, rfl⟩

/-! Claim C4. -/

/-- Claim C4 is right about the intent and the code breaks it: on a fresh
PROGRESS-flagged objective whose earlier gates all pass, checkObjective
returns valid yet leaves progress at its default -1, because the source
test for an unset progress only matches the falsy value 0, never the
default -1. -/
theorem claim_C4_bug :
    (pointProgressFresh.checkObjective pOrigin).1 = true ∧
    (pointProgressFresh.checkObjective pOrigin).2.1.progress = -1 := by
  have hf1 : isFlagged 4 1 = false := by decide
  have hf2 : isFlagged 4 2 = false := by decide
  have hf4 : isFlagged 4 4 = true := by decide
  norm_num [Objective.checkObjective, isInRange, distSq,
    Objective.create, pointProgressFresh, pOrigin, Modifiers.ON_FOOT,
    Modifiers.IN_VEHICLE, Modifiers.PROGRESS, Objectives.CAPTURE, Objectives.HOLD,
    Objectives.MASH, Objectives.ORDER, Objectives.POINT, capture, hold, mash, order,
    hf1, hf2, hf4]

/-! Claim C5. -/

/-- Claim C5: an objective with no position, checked against a player at
any point, has its position defaulted to the player and the range gate
passes on that call, since the self-distance 0 is below the range, which is
never below 2. -/
theorem claim_C5 (p : Player) (o : Objective) (hpos : o.pos = none) (hr : 2 ≤ o.range) :
    ((o.checkObjective p).2.1).pos = some p.pos ∧
    isInRange p.pos { o with pos := some p.pos } = true := by
  constructor
  · rw [checkObjective_pos, hpos]
    rfl
  · have h0 : ¬ o.range ≤ 0 := by linarith
    have h2 : ¬ o.range ^ 2 ≤ distSq p.pos p.pos := by
      rw [distSq_self]
      nlinarith
    simp [isInRange, h0, h2]

/-- Witness for claim C5 at a fresh capture objective. -/
theorem claim_C5_witness :
    ((captureFresh.checkObjective pOrigin).2.1).pos = some pOrigin.pos ∧
    isInRange pOrigin.pos { captureFresh with pos := some pOrigin.pos } = true :=
  claim_C5 pOrigin captureFresh rfl (by norm_num [captureFresh, Objective.create])

/-! Claim C6. -/

/-- Claim C6: an item reward of quantity 3 produces exactly one grant call
of quantity 3 when the item is stackable, and exactly 3 grant calls of one
unit each with 3 notifications when it is not. -/
theorem claim_C6 (cat : Catalog) (key : String) (item : ItemDef)
    (hfound : cat key = some item) :
    (item.stackable = true →
      issueReward cat { type := "item", prop := key, quantity := 3 } =
        [Event.addItem item 3, Event.send (item.label ++ " was added to your inventory.")]) ∧
    (item.stackable = false →
      issueReward cat { type := "item", prop := key, quantity := 3 } =
        [Event.addItem item 1, Event.send (item.label ++ " was added to your inventory."),
         Event.addItem item 1, Event.send (item.label ++ " was added to your inventory."),
         Event.addItem item 1, Event.send (item.label ++ " was added to your inventory.")]) := by
  constructor <;> intro hs <;>
  simp [issueReward, hfound, hs, grantLoop]

/-- Witness for claim C6 on a concrete stackable catalog entry. -/
theorem claim_C6_witness :
    issueReward catCarrot { type := "item", prop := "carrot", quantity := 3 } =
      [Event.addItem carrotDef 3,
       Event.send (carrotDef.label ++ " was added to your inventory.")] :=
  (claim_C6 catCarrot "carrot" carrotDef rfl).1 rfl

/-! Claim C7. -/

/-- Claim C7 as frozen is false: setPosition does not store its argument as
passed; the stored position has the z coordinate lowered by 0.5. -/
theorem claim_C7_counterexample :
    (captureFresh.setPosition { x := 1, y := 2, z := 3 }).pos ≠
      some { x := 1, y := 2, z := 3 } := by
  simp only [captureFresh, Objective.create, Objective.setPosition, Option.some.injEq,
    Vec3.mk.injEq, ne_eq, not_and]
  intro _ _
  norm_num

/-- Amended claim C7: every Objective setter is a simple field assignment
of its argument and touches nothing else, with two exceptions: setRange
clamps requests of at most 2 up to 2, and setPosition stores its argument
with the z coordinate lowered by 0.5. No setter has an error condition. -/
theorem claim_C7_amended (o : Objective) (p dir rot scale bpos tpos : Vec3) (r : ℚ)
    (msg snd1 snd2 dict nm tty : String) (rws : List Reward) (fl du rr gg bb aa : ℤ)
    (mtype sprite color : ℕ) (restr : List ItemRestriction) :
    o.setPosition p = { o with pos := some { x := p.x, y := p.y, z := p.z - 1/2 } } ∧
    o.setRange r = { o with range := if r ≤ 2 then 2 else r } ∧
    o.setHelpText msg = { o with helpText := some msg } ∧
    o.setRewards rws = { o with rewards := rws } ∧
    o.setEverySound snd1 = { o with everySound := some snd1 } ∧
    o.setFinishSound snd2 = { o with finishSound := some snd2 } ∧
    o.setAnimation dict nm fl du =
      { o with anim := some { dict := dict, name := nm, flags := fl, duration := du } } ∧
    o.setMarker mtype p dir rot scale rr gg bb aa =
      { o with marker := some { type := mtype, pos := p, dir := dir, rot := rot,
                                scale := scale, r := rr, g := gg, b := bb, a := aa } } ∧
    o.setBlip sprite color bpos =
      { o with blip := some { sprite := sprite, color := color, pos := bpos } } ∧
    o.setTarget tpos tty = { o with target := some { target := tpos, type := tty } } ∧
    o.setItemRestrictions restr = { o with itemRestrictions := some restr } :=
  ⟨rfl, rfl, rfl, rfl, rfl, rfl, rfl, rfl, rfl, rfl, rfl⟩

/-! Claim C8. -/

/-- Claim C8: setRange stores exactly 2 for any request of at most 2 and
stores the request unchanged above 2. -/
theorem claim_C8 (o : Objective) (r : ℚ) :
    (r ≤ 2 → (o.setRange r).range = 2) ∧ (2 < r → (o.setRange r).range = r) := by
  constructor <;> intro h
  · simp [Objective.setRange, h]
  · simp [Objective.setRange, not_le.mpr h]

/-- Witness for claim C8 at the concrete requests 1 and 7. -/
theorem claim_C8_witness :
    (captureFresh.setRange 1).range = 2 ∧ (captureFresh.setRange 7).range = 7 :=
  ⟨(claim_C8 captureFresh 1).1 (by norm_num), (claim_C8 captureFresh 7).2 (by norm_num)⟩

/-! Claim C9. -/

/-- Claim C9: when the reentrancy flag of the player is already set,
Job.check returns immediately: no objective logic runs, no events are
emitted, and the player and job states are returned unchanged. -/
theorem claim_C9 (cat : Catalog) (p : Player) (j : Job) (h : p.checking = true) :
    j.check cat p = some (p, j, []) := by
  simp [Job.check, h]

/-- Witness for claim C9 on a concrete mid-check player. -/
theorem claim_C9_witness :
    Job.check { name := "j", objectives := [oA, oB, oM, oC], infinite := false } catEmpty
      pChecking =
      some (pChecking, { name := "j", objectives := [oA, oB, oM, oC], infinite := false }, []) :=
  claim_C9 catEmpty pChecking { name := "j", objectives := [oA, oB, oM, oC], infinite := false }
    rfl

/-! Claim C10. -/

/-- Claim C10: for a navigable-kind objective with a set position, the
range gate passes exactly when the Euclidean distance from the player to
the position is strictly below the stored range, and a player at distance
exactly the range fails the gate, making checkObjective report invalid. -/
theorem claim_C10 (p : Player) (o : Objective) (q : Vec3)
    (htype : o.type ≤ 5) (hpos : o.pos = some q) :
    (isInRange p.pos o = true ↔ distance p.pos q < o.range) ∧
    (distance p.pos q = o.range → (o.checkObjective p).1 = false) := by
  refine ⟨isInRange_eq_true_iff _ _ _ hpos, fun heq => ?_⟩
  have hfail : isInRange p.pos o = false := by
    rw [← Bool.not_eq_true]
    intro hT
    rw [isInRange_eq_true_iff _ _ _ hpos, heq] at hT
    exact lt_irrefl _ hT
  exact checkObjective_fails_out_of_range o p q htype hpos hfail

/-- Witness for claim C10 at a concrete capture objective. -/
theorem claim_C10_witness :
    (isInRange pOrigin.pos captureAt = true ↔
      distance pOrigin.pos { x := 0, y := 0, z := 0 } < captureAt.range) ∧
    (distance pOrigin.pos { x := 0, y := 0, z := 0 } = captureAt.range →
      (captureAt.checkObjective pOrigin).1 = false) :=
  claim_C10 pOrigin captureAt { x := 0, y := 0, z := 0 } (by decide) rfl

end JobSystem
